import Mathlib

/-!
Shallow embedding of the AgentAlpha on-chain program
(`src/programs/agentalpha/src/lib.rs`, the canonical TARGET/STOP/EXPIRED
revision) and proofs about its commit-reveal / reputation logic.

Modelling conventions:
* Rust `u8`/`u64` values are `Nat`, `i32`/`i64` are `Int`.  The reputation
  counters are modelled without a wrap-around: Anchor workspaces compile with
  `overflow-checks = true`, so an overflowing update aborts the transaction,
  and no claim exercises states anywhere near `2^64` resolutions.
* Rust `String`s are modelled by their UTF-8 byte lists (`List Nat`), so that
  `String::len` (a byte count) is `List.length` and hashing consumes exactly
  `as_bytes()`.
* Solana public keys are `Nat`.
* A failed instruction aborts the whole transaction, so no account mutation
  persists; handlers therefore return `Except` values and the `run*` wrappers
  keep the old state on error.
* `Clock::get()?.unix_timestamp` is passed in as an explicit `now : Int`.
-/

/-! ### SHA-256 (faithful embedding of the `sha2` crate digest used by `reveal_signal`) -/

/-- Reduce to a 32-bit word. -/
def mod32 (x : Nat) : Nat := x % 4294967296

/-- Right rotation of a 32-bit word by `n` bits. -/
def rotr32 (n x : Nat) : Nat :=
  (x % 4294967296) / 2 ^ n + ((x % 4294967296) % 2 ^ n) * 2 ^ (32 - n)

/-- The SHA-256 choice function `Ch(x,y,z)`. -/
def shaCh (x y z : Nat) : Nat := (x &&& y) ^^^ ((x ^^^ 4294967295) &&& z)

/-- The SHA-256 majority function `Maj(x,y,z)`. -/
def shaMaj (x y z : Nat) : Nat := (x &&& y) ^^^ (x &&& z) ^^^ (y &&& z)

/-- SHA-256 `Σ₀`. -/
def bigSigma0 (x : Nat) : Nat := rotr32 2 x ^^^ rotr32 13 x ^^^ rotr32 22 x

/-- SHA-256 `Σ₁`. -/
def bigSigma1 (x : Nat) : Nat := rotr32 6 x ^^^ rotr32 11 x ^^^ rotr32 25 x

/-- SHA-256 `σ₀`. -/
def smallSigma0 (x : Nat) : Nat := rotr32 7 x ^^^ rotr32 18 x ^^^ x / 2 ^ 3

/-- SHA-256 `σ₁`. -/
def smallSigma1 (x : Nat) : Nat := rotr32 17 x ^^^ rotr32 19 x ^^^ x / 2 ^ 10

/-- The 64 SHA-256 round constants (FIPS 180-4, written in decimal). -/
def shaK : List Nat :=
  [1116352408, 1899447441, 3049323471, 3921009573, 961987163, 1508970993,
   2453635748, 2870763221, 3624381080, 310598401, 607225278, 1426881987,
   1925078388, 2162078206, 2614888103, 3248222580, 3835390401, 4022224774,
   264347078, 604807628, 770255983, 1249150122, 1555081692, 1996064986,
   2554220882, 2821834349, 2952996808, 3210313671, 3336571891, 3584528711,
   113926993, 338241895, 666307205, 773529912, 1294757372, 1396182291,
   1695183700, 1986661051, 2177026350, 2456956037, 2730485921, 2820302411,
   3259730800, 3345764771, 3516065817, 3600352804, 4094571909, 275423344,
   430227734, 506948616, 659060556, 883997877, 958139571, 1322822218,
   1537002063, 1747873779, 1955562222, 2024104815, 2227730452, 2361852424,
   2428436474, 2756734187, 3204031479, 3329325298]

/-- SHA-256 working state: eight 32-bit words. -/
structure Sha256State where
  a : Nat
  b : Nat
  c : Nat
  d : Nat
  e : Nat
  f : Nat
  g : Nat
  h : Nat
deriving DecidableEq

/-- The SHA-256 initial hash value. -/
def shaInit : Sha256State :=
  ⟨1779033703, 3144134277, 1013904242, 2773480762, 1359893119, 2600822924, 528734635, 1541459225⟩

/-- Group a byte list into big-endian 32-bit words. -/
def bytesToWords : List Nat → List Nat
  | b0 :: b1 :: b2 :: b3 :: rest =>
      (b0 * 16777216 + b1 * 65536 + b2 * 256 + b3) :: bytesToWords rest
  | _ => []

/-- Message-schedule extension; `rws` is the reversed word list, `k` words are prepended. -/
def shaExtend : Nat → List Nat → List Nat
  | 0, rws => rws
  | k + 1, rws =>
      shaExtend k
        (mod32 (smallSigma1 (rws.getD 1 0) + rws.getD 6 0 + smallSigma0 (rws.getD 14 0) +
          rws.getD 15 0) :: rws)

/-- The 64-word message schedule of one 64-byte block. -/
def shaSchedule (block : List Nat) : List Nat :=
  (shaExtend 48 (bytesToWords block).reverse).reverse

/-- One SHA-256 compression round. -/
def shaRound (s : Sha256State) (wk : Nat × Nat) : Sha256State :=
  let t1 := mod32 (s.h + bigSigma1 s.e + shaCh s.e s.f s.g + wk.2 + wk.1)
  let t2 := mod32 (bigSigma0 s.a + shaMaj s.a s.b s.c)
  ⟨mod32 (t1 + t2), s.a, s.b, s.c, mod32 (s.d + t1), s.e, s.f, s.g⟩

/-- Compress one 64-byte block into the running hash state. -/
def shaCompress (hs : Sha256State) (block : List Nat) : Sha256State :=
  let fin := ((shaSchedule block).zip shaK).foldl shaRound hs
  ⟨mod32 (hs.a + fin.a), mod32 (hs.b + fin.b), mod32 (hs.c + fin.c), mod32 (hs.d + fin.d),
   mod32 (hs.e + fin.e), mod32 (hs.f + fin.f), mod32 (hs.g + fin.g), mod32 (hs.h + fin.h)⟩

/-- Fold the compression function over the first `n` 64-byte chunks of `msg`. -/
def shaBlocks : Nat → Sha256State → List Nat → Sha256State
  | 0, hs, _ => hs
  | n + 1, hs, msg => shaBlocks n (shaCompress hs (msg.take 64)) (msg.drop 64)

/-- Big-endian 8-byte encoding of the 64-bit bit-length. -/
def len64Bytes (n : Nat) : List Nat :=
  [n / 2 ^ 56 % 256, n / 2 ^ 48 % 256, n / 2 ^ 40 % 256, n / 2 ^ 32 % 256,
   n / 2 ^ 24 % 256, n / 2 ^ 16 % 256, n / 2 ^ 8 % 256, n % 256]

/-- SHA-256 padding for a message of `len` bytes: `0x80`, zeros, 64-bit bit length. -/
def shaPad (len : Nat) : List Nat :=
  128 :: List.replicate ((119 - len % 64) % 64) 0 ++ len64Bytes (8 * len)

/-- Big-endian bytes of one 32-bit word. -/
def wordBytes (w : Nat) : List Nat :=
  [w / 16777216 % 256, w / 65536 % 256, w / 256 % 256, w % 256]

/-- SHA-256 digest (32 bytes) of a byte list; embedding of the `sha2` crate's `Sha256`
as used by `reveal_signal` (checked against the FIPS 180-4 test vectors for the empty
string, `"abc"` and the two-block 448-bit message). -/
def sha256 (msg : List Nat) : List Nat :=
  let padded := msg ++ shaPad msg.length
  let fin := shaBlocks (padded.length / 64) shaInit padded
  wordBytes fin.a ++ wordBytes fin.b ++ wordBytes fin.c ++ wordBytes fin.d ++
  wordBytes fin.e ++ wordBytes fin.f ++ wordBytes fin.g ++ wordBytes fin.h

/-! ### Canonical reveal-payload encoding

The digest checked by `reveal_signal` is taken over the Rust format string that
joins token, direction, entry, tp, sl, timeframe and confidence with colons;
numbers are printed in decimal with no sign or padding. -/

/-- Decimal digits, most significant first, with an explicit fuel argument so the
function is structurally recursive and reduces by kernel computation; `n + 1`
units of fuel always suffice because `n / 10 < n` for `n ≥ 10`. -/
def decDigitsAux : Nat → Nat → List Nat
  | 0, _ => []
  | fuel + 1, n => if n < 10 then [n] else decDigitsAux fuel (n / 10) ++ [n % 10]

/-- Decimal digits of `n`, most significant first (`format!` prints `0` as `"0"`). -/
def decDigits (n : Nat) : List Nat := decDigitsAux (n + 1) n

/-- ASCII bytes of the decimal rendering of `n`, as produced by `format!` for an
unsigned integer. -/
def asciiDec (n : Nat) : List Nat := (decDigits n).map (· + 48)

/-- A reveal payload: the argument list of `reveal_signal` (the `token` is the UTF-8
byte list of the Rust `String`). -/
structure RevealPayload where
  token : List Nat
  direction : Nat
  entry_cents : Nat
  tp_cents : Nat
  sl_cents : Nat
  timeframe_hours : Nat
  confidence : Nat
deriving DecidableEq

/-- The canonical encoding hashed by `reveal_signal`:
token, direction, entry, tp, sl, timeframe and confidence joined by `:` (byte 58). -/
def encodePayload (p : RevealPayload) : List Nat :=
  p.token ++ 58 :: asciiDec p.direction ++ 58 :: asciiDec p.entry_cents ++
  58 :: asciiDec p.tp_cents ++ 58 :: asciiDec p.sl_cents ++
  58 :: asciiDec p.timeframe_hours ++ 58 :: asciiDec p.confidence

/-! ### Data model (`#[account]` state and `#[event]` types) -/

/-- The program's `#[error_code]` enum `AgentAlphaError`. -/
inductive AgentAlphaError where
  | NameTooLong
  | EndpointTooLong
  | TooManyCategories
  | TokenTooLong
  | InvalidDirection
  | InvalidTimeframe
  | InvalidConfidence
  | InvalidOutcome
  | AlreadyRevealed
  | NotRevealed
  | HashMismatch
  | OutcomeAlreadyRecorded
deriving DecidableEq

/-- The `Provider` account.  Counters are unbounded (see the header note on overflow). -/
structure Provider where
  authority : Nat
  name : List Nat
  endpoint : List Nat
  categories : List Nat
  price_lamports : Nat
  total_signals : Nat
  correct_signals : Nat
  total_return_bps : Int
  created_at : Int
  updated_at : Int
  bump : Nat
deriving DecidableEq

/-- The method `Provider::hit_rate_bps`. -/
def Provider.hit_rate_bps (p : Provider) : Nat :=
  if p.total_signals = 0 then 0 else p.correct_signals * 10000 / p.total_signals

/-- The method `Provider::avg_return_bps`; Rust `i64` division truncates toward zero, which is
`Int.tdiv`. -/
def Provider.avg_return_bps (p : Provider) : Int :=
  if p.total_signals = 0 then 0 else Int.tdiv p.total_return_bps (Int.ofNat p.total_signals)

/-- The `SignalCommit` account. -/
structure SignalCommit where
  provider : Nat
  signal_hash : List Nat
  committed_at : Int
  revealed : Bool
  outcome_recorded : Bool
  token : List Nat
  direction : Nat
  entry_cents : Nat
  tp_cents : Nat
  sl_cents : Nat
  timeframe_hours : Nat
  confidence : Nat
  revealed_at : Int
  outcome : Nat
  final_price_cents : Nat
  was_correct : Bool
  return_bps : Int
  evaluated_at : Int
  bump : Nat
deriving DecidableEq

/-- The `ProviderRegistered` event. -/
structure ProviderRegistered where
  provider : Nat
  authority : Nat
  name : List Nat
  endpoint : List Nat
deriving DecidableEq

/-- The `SignalCommitted` event. -/
structure SignalCommitted where
  provider : Nat
  signal_hash : List Nat
  committed_at : Int
deriving DecidableEq

/-- The `SignalRevealed` event. -/
structure SignalRevealed where
  provider : Nat
  signal_hash : List Nat
  token : List Nat
  direction : Nat
  entry_cents : Nat
  tp_cents : Nat
  sl_cents : Nat
  timeframe_hours : Nat
  confidence : Nat
deriving DecidableEq

/-- Decidable equality for `Except` results. -/
instance {E A : Type} [DecidableEq E] [DecidableEq A] : DecidableEq (Except E A) :=
  fun x y =>
    match x, y with
    | .ok a, .ok b => decidable_of_iff (a = b) (by simp)
    | .error e, .error f => decidable_of_iff (e = f) (by simp)
    | .ok _, .error _ => isFalse (by simp)
    | .error _, .ok _ => isFalse (by simp)

/-- The `OutcomeRecorded` event. -/
structure OutcomeRecorded where
  provider : Nat
  signal_hash : List Nat
  outcome : Nat
  was_correct : Bool
  return_bps : Int
  total_signals : Nat
  correct_signals : Nat
deriving DecidableEq

/-! ### Instruction handlers (the bodies of the five `#[program]` functions)

Each `require!(cond, E)` becomes `if cond then … else .error E`; a failed
instruction aborts the transaction, so the `run*` wrappers below keep the old
account state on error. -/

/-- Handler `register_provider`: `providerKey` is the provider PDA (`provider.key()`),
`authority` the signing wallet, `bump` the runtime-derived PDA bump. -/
def register_provider (providerKey authority bump : Nat) (name endpoint : List Nat)
    (categories : List Nat) (price_lamports : Nat) (now : Int) :
    Except AgentAlphaError (Provider × ProviderRegistered) :=
  if name.length ≤ 64 then
    if endpoint.length ≤ 256 then
      if categories.length ≤ 8 then
        let provider : Provider :=
          { authority := authority, name := name, endpoint := endpoint,
            categories := categories, price_lamports := price_lamports,
            total_signals := 0, correct_signals := 0, total_return_bps := 0,
            created_at := now, updated_at := now, bump := bump }
        .ok (provider,
          { provider := providerKey, authority := provider.authority,
            name := provider.name, endpoint := provider.endpoint })
      else .error .TooManyCategories
    else .error .EndpointTooLong
  else .error .NameTooLong

/-- Handler `update_provider` (no event is emitted by the source). -/
def update_provider (p : Provider) (name endpoint : Option (List Nat))
    (price_lamports : Option Nat) (now : Int) : Except AgentAlphaError Provider := do
  let p ← match name with
    | some n => if n.length ≤ 64 then pure { p with name := n } else throw .NameTooLong
    | none => pure p
  let p ← match endpoint with
    | some e => if e.length ≤ 256 then pure { p with endpoint := e } else throw .EndpointTooLong
    | none => pure p
  let p := match price_lamports with
    | some pr => { p with price_lamports := pr }
    | none => p
  pure { p with updated_at := now }

/-- Handler `commit_signal`: infallible at the handler level (the freshness of the
`(provider, signal_hash)` PDA is enforced by the runtime's `init`, see `commitStep`).
Anchor zero-initialises a fresh account, so the not-yet-assigned reveal/outcome
fields start at zero / empty / false. -/
def commit_signal (providerKey bump : Nat) (signal_hash : List Nat) (now : Int) :
    SignalCommit × SignalCommitted :=
  let commit : SignalCommit :=
    { provider := providerKey, signal_hash := signal_hash, committed_at := now,
      revealed := false, outcome_recorded := false,
      token := [], direction := 0, entry_cents := 0, tp_cents := 0, sl_cents := 0,
      timeframe_hours := 0, confidence := 0, revealed_at := 0,
      outcome := 0, final_price_cents := 0, was_correct := false, return_bps := 0,
      evaluated_at := 0, bump := bump }
  (commit,
   { provider := commit.provider, signal_hash := signal_hash,
     committed_at := commit.committed_at })

/-- Handler `reveal_signal`. -/
def reveal_signal (c : SignalCommit) (p : RevealPayload) (now : Int) :
    Except AgentAlphaError (SignalCommit × SignalRevealed) :=
  if c.revealed then .error .AlreadyRevealed
  else if p.token.length ≤ 16 then
    if p.direction ≤ 1 then
      if 1 ≤ p.timeframe_hours ∧ p.timeframe_hours ≤ 72 then
        if p.confidence ≤ 100 then
          let computed_hash := sha256 (encodePayload p)
          if computed_hash = c.signal_hash then
            let c : SignalCommit :=
              { c with
                revealed := true, token := p.token, direction := p.direction,
                entry_cents := p.entry_cents, tp_cents := p.tp_cents,
                sl_cents := p.sl_cents, timeframe_hours := p.timeframe_hours,
                confidence := p.confidence, revealed_at := now }
            .ok (c,
              { provider := c.provider, signal_hash := c.signal_hash, token := c.token,
                direction := c.direction, entry_cents := c.entry_cents,
                tp_cents := c.tp_cents, sl_cents := c.sl_cents,
                timeframe_hours := c.timeframe_hours, confidence := c.confidence })
          else .error .HashMismatch
        else .error .InvalidConfidence
      else .error .InvalidTimeframe
    else .error .InvalidDirection
  else .error .TokenTooLong

/-- The inline `match` in `record_outcome` that fixes the correctness policy:
TP hit (1) correct, SL hit (2) wrong, expired (3) correct iff the return is
strictly positive. -/
def wcPolicy (outcome : Nat) (return_bps : Int) : Bool :=
  match outcome with
  | 1 => true
  | 2 => false
  | 3 => decide (0 < return_bps)
  | _ => false

/-- Handler `record_outcome`: `providerKey` is `provider.key()`. -/
def record_outcome (c : SignalCommit) (prov : Provider) (providerKey : Nat)
    (outcome : Nat) (final_price_cents : Nat) (return_bps : Int) (now : Int) :
    Except AgentAlphaError (SignalCommit × Provider × OutcomeRecorded) :=
  if c.revealed then
    if c.outcome_recorded then .error .OutcomeAlreadyRecorded
    else if 1 ≤ outcome ∧ outcome ≤ 3 then
      let was_correct : Bool := wcPolicy outcome return_bps
      let c : SignalCommit :=
        { c with
          outcome_recorded := true, outcome := outcome,
          final_price_cents := final_price_cents, was_correct := was_correct,
          return_bps := return_bps, evaluated_at := now }
      let prov : Provider :=
        { prov with
          total_signals := prov.total_signals + 1,
          correct_signals := prov.correct_signals + (if was_correct then 1 else 0),
          total_return_bps := prov.total_return_bps + return_bps, updated_at := now }
      .ok (c, prov,
        { provider := providerKey, signal_hash := c.signal_hash, outcome := outcome,
          was_correct := was_correct, return_bps := return_bps,
          total_signals := prov.total_signals, correct_signals := prov.correct_signals })
    else .error .InvalidOutcome
  else .error .NotRevealed

/-- Transaction semantics of a failed `reveal_signal`: the account keeps its old state. -/
def runReveal (c : SignalCommit) (p : RevealPayload) (now : Int) : SignalCommit :=
  match reveal_signal c p now with
  | .ok (c', _) => c'
  | .error _ => c

/-- Transaction semantics of a failed `update_provider`. -/
def runUpdate (p : Provider) (name endpoint : Option (List Nat))
    (price_lamports : Option Nat) (now : Int) : Provider :=
  match update_provider p name endpoint price_lamports now with
  | .ok p' => p'
  | .error _ => p

/-- Transaction semantics of a failed `record_outcome`. -/
def runRecordOutcome (c : SignalCommit) (prov : Provider) (providerKey : Nat)
    (outcome final_price_cents : Nat) (return_bps : Int) (now : Int) :
    SignalCommit × Provider :=
  match record_outcome c prov providerKey outcome final_price_cents return_bps now with
  | .ok (c', prov', _) => (c', prov')
  | .error _ => (c, prov)

/-! ### Account-runtime layer

The spec (sections 1, 6 and 9) treats the surrounding ledger runtime as an external
collaborator: durable keyed storage, deterministic PDA addressing, `init`-fails-if-key-
exists, signer checks and whole-transaction atomicity.  That code is generated by
Anchor and is not under `src/`, so it is modelled here from the spec's words. -/

/-- Modelled from the spec: failure kinds of the surrounding account runtime
(spec sections 6, 7 and 9) — re-creation of an existing record
(`IdentityAlreadyRegistered`, `DuplicateCommitment`), a missing record, a failed
signer / ownership check (`unauthorized`), and a failed declared account
constraint; program-level errors are wrapped in `program`. -/
inductive TxError where
  | program (e : AgentAlphaError)
  | identityAlreadyRegistered
  | duplicateCommitment
  | unauthorized
  | accountNotFound
  | constraintViolation
deriving DecidableEq

/-- Modelled from the spec: the deterministic-address derivation primitive (spec
section 6) is a black-box injective key-derivation function from the owner identity
to the `Provider` record's address; it is modelled as the identity on owner ids. -/
def providerPda (authority : Nat) : Nat := authority

/-- The durable keyed store: `Provider` records keyed by their PDA, `SignalCommit`
records keyed by `(provider PDA, signal_hash)`. -/
structure ChainState where
  providers : List (Nat × Provider)
  commits : List ((Nat × List Nat) × SignalCommit)
deriving DecidableEq

/-- Modelled from the spec: `register` creates the `Provider` record at the
address derived from the owner and fails if that key already holds a record
(spec sections 4.2 and 9); the runtime-derived bump is irrelevant to the claims
and fixed at `255`. -/
def registerStep (s : ChainState) (authority : Nat) (name endpoint : List Nat)
    (categories : List Nat) (price_lamports : Nat) (now : Int) :
    Except TxError ChainState :=
  let pk := providerPda authority
  match s.providers.lookup pk with
  | some _ => .error .identityAlreadyRegistered
  | none =>
    match register_provider pk authority 255 name endpoint categories price_lamports now with
    | .error e => .error (.program e)
    | .ok (p, _ev) => .ok { s with providers := (pk, p) :: s.providers }

/-- Transaction semantics of a failed `registerStep`: the store is unchanged. -/
def runRegisterStep (s : ChainState) (authority : Nat) (name endpoint : List Nat)
    (categories : List Nat) (price_lamports : Nat) (now : Int) : ChainState :=
  match registerStep s authority name endpoint categories price_lamports now with
  | .ok s' => s'
  | .error _ => s

/-- Modelled from the spec: `commit` requires a registered `Provider` owned by the
signing authority (`has_one = authority` plus the provider PDA seeds) and creates
the `SignalCommit` record at the key `(provider PDA, signal_hash)`, failing
`DuplicateCommitment` if that key already exists (spec sections 4.3 and 9). -/
def commitStep (s : ChainState) (authority : Nat) (signal_hash : List Nat) (now : Int) :
    Except TxError ChainState :=
  let pk := providerPda authority
  match s.providers.lookup pk with
  | none => .error .accountNotFound
  | some prov =>
    if prov.authority = authority then
      match s.commits.lookup (pk, signal_hash) with
      | some _ => .error .duplicateCommitment
      | none =>
        let (c, _ev) := commit_signal pk 255 signal_hash now
        .ok { s with commits := ((pk, signal_hash), c) :: s.commits }
    else .error .unauthorized

/-- The accounts named by a `record_outcome` call, as declared by the
`RecordOutcome` accounts struct: the commitment, the provider it belongs to
(`constraint = signal_commit.provider == provider.key()`), and the oracle, whose
only declared requirement is to be a transaction signer. -/
structure RecordOutcomeAccounts where
  signal_commit : SignalCommit
  provider : Provider
  providerKey : Nat
  oracle : Nat
  oracleSigned : Bool
deriving DecidableEq

/-- Handler `record_outcome` including the declared account validation: the oracle must have
signed (a runtime signer check, modelled from the spec's Access Guard) and the
commitment must belong to the passed provider; no check relates `oracle` to any
other account. -/
def recordOutcomeFull (a : RecordOutcomeAccounts) (outcome final_price_cents : Nat)
    (return_bps : Int) (now : Int) :
    Except TxError (SignalCommit × Provider × OutcomeRecorded) :=
  if a.oracleSigned then
    if a.signal_commit.provider = a.providerKey then
      match record_outcome a.signal_commit a.provider a.providerKey outcome
          final_price_cents return_bps now with
      | .error e => .error (.program e)
      | .ok r => .ok r
    else .error .constraintViolation
  else .error .unauthorized

/-! ### Characterisation lemmas for the handlers -/

/-! ### Reachable states -/

/-- The `SignalCommit` states reachable by the program's own operations:
created by `commit_signal`, advanced by successful `reveal_signal` /
`record_outcome` calls. -/
inductive CommitReach : SignalCommit → Prop where
  | committed (providerKey bump : Nat) (signal_hash : List Nat) (now : Int) :
      CommitReach (commit_signal providerKey bump signal_hash now).1
  | revealStep {c c' : SignalCommit} {ev : SignalRevealed}
      (p : RevealPayload) (now : Int) :
      CommitReach c → reveal_signal c p now = .ok (c', ev) → CommitReach c'
  | resolveStep {c c' : SignalCommit} {prov prov' : Provider} {ev : OutcomeRecorded}
      (providerKey outcome final_price_cents : Nat) (return_bps : Int) (now : Int) :
      CommitReach c →
      record_outcome c prov providerKey outcome final_price_cents return_bps now =
        .ok (c', prov', ev) →
      CommitReach c'

/-- The `Provider` states reachable by the program's own operations: created by a
successful `register_provider`, mutated by successful `update_provider` /
`record_outcome` calls. -/
inductive ProviderReach : Provider → Prop where
  | registered {p : Provider} {ev : ProviderRegistered}
      (providerKey authority bump : Nat) (name endpoint categories : List Nat)
      (price_lamports : Nat) (now : Int) :
      register_provider providerKey authority bump name endpoint categories
        price_lamports now = .ok (p, ev) →
      ProviderReach p
  | updateStep {p p' : Provider} (name endpoint : Option (List Nat))
      (price_lamports : Option Nat) (now : Int) :
      ProviderReach p → update_provider p name endpoint price_lamports now = .ok p' →
      ProviderReach p'
  | resolveStep {p p' : Provider} {c c' : SignalCommit} {ev : OutcomeRecorded}
      (providerKey outcome final_price_cents : Nat) (return_bps : Int) (now : Int) :
      ProviderReach p →
      record_outcome c p providerKey outcome final_price_cents return_bps now =
        .ok (c', p', ev) →
      ProviderReach p'

/-! ### Validity of a reveal payload, and hash collisions

`ValidPayload` collects exactly the bounds `reveal_signal` checks.  The reveal
payload space is strictly larger than the 2^256 possible digests, so two distinct
valid payloads with the same digest exist (no explicit pair is computable, but the
pigeonhole principle applies); this refutes the spec's unconditional claim that any
payload differing from the committed one fails `HashMismatch`. -/

/-- The payload bounds checked by `reveal_signal`. -/
def ValidPayload (p : RevealPayload) : Prop :=
  p.token.length ≤ 16 ∧ p.direction ≤ 1 ∧ 1 ≤ p.timeframe_hours ∧
  p.timeframe_hours ≤ 72 ∧ p.confidence ≤ 100

instance (p : RevealPayload) : Decidable (ValidPayload p) := by
  unfold ValidPayload; infer_instance

/-- Index type for the pigeonhole argument: 16 lowercase-ASCII token letters and
three 64-bit prices — `26^16 * 2^192 > 2^256` distinct valid payloads. -/
abbrev PigeonIdx : Type :=
  (Fin 16 → Fin 26) × Fin (2 ^ 64) × Fin (2 ^ 64) × Fin (2 ^ 64)

/-- A 16-byte lowercase-ASCII token (bytes 97–122, valid UTF-8). -/
def pigeonToken (t : Fin 16 → Fin 26) : List Nat :=
  List.ofFn (fun i => 97 + (t i).val)

/-- The valid payload encoded by a pigeonhole index. -/
def pigeonPayload (x : PigeonIdx) : RevealPayload :=
  { token := pigeonToken x.1, direction := 0, entry_cents := x.2.1.val,
    tp_cents := x.2.2.1.val, sl_cents := x.2.2.2.val, timeframe_hours := 1,
    confidence := 0 }

/-- A 32-byte digest viewed as a function into bytes. -/
def digestFn (l : List Nat) : Fin 32 → Fin 256 :=
  fun i => ⟨l.getD i.val 0 % 256, Nat.mod_lt _ (by norm_num)⟩


/-! ### Concrete fixtures (spec section 8 scenario and auxiliary records) -/

/-- The UTF-8 bytes of `"AlphaBot"`. -/
def sampleName : List Nat := [65, 108, 112, 104, 97, 66, 111, 116]

/-- The UTF-8 bytes of `"https://x"`. -/
def sampleEndpoint : List Nat := [104, 116, 116, 112, 115, 58, 47, 47, 120]

/-- The provider created by the spec's registration scenario. -/
def sampleProvider : Provider :=
  { authority := 5, name := sampleName, endpoint := sampleEndpoint, categories := [1, 2],
    price_lamports := 1000000, total_signals := 0, correct_signals := 0,
    total_return_bps := 0, created_at := 50, updated_at := 50, bump := 255 }

/-- The spec's scenario payload: BTC long, entry 6500000, tp 6700000, sl 6400000,
24 hours, confidence 80 (`token` is the bytes of `"BTC"`). -/
def samplePayload : RevealPayload :=
  { token := [66, 84, 67], direction := 0, entry_cents := 6500000, tp_cents := 6700000,
    sl_cents := 6400000, timeframe_hours := 24, confidence := 80 }

/-- The committed digest of the scenario payload. -/
def sampleHash : List Nat := sha256 (encodePayload samplePayload)

/-- The scenario commitment record. -/
def sampleCommit : SignalCommit := (commit_signal 5 255 sampleHash 100).1

/-- The scenario commitment after its reveal. -/
def sampleRevealed : SignalCommit := runReveal sampleCommit samplePayload 200

/-- The event of the scenario reveal. -/
def sampleRevealEv : SignalRevealed :=
  match reveal_signal sampleCommit samplePayload 200 with
  | .ok (_, ev) => ev
  | .error _ =>
    { provider := 0, signal_hash := [], token := [], direction := 0, entry_cents := 0,
      tp_cents := 0, sl_cents := 0, timeframe_hours := 0, confidence := 0 }

/-- The scenario resolution call (TARGET_HIT at 6700000, +308 bps). -/
def sampleResolve : Except AgentAlphaError (SignalCommit × Provider × OutcomeRecorded) :=
  record_outcome sampleRevealed sampleProvider 5 1 6700000 308 300

/-- The scenario commitment after resolution. -/
def sampleResolved : SignalCommit :=
  (runRecordOutcome sampleRevealed sampleProvider 5 1 6700000 308 300).1

/-- The scenario provider after resolution. -/
def sampleResolvedProv : Provider :=
  (runRecordOutcome sampleRevealed sampleProvider 5 1 6700000 308 300).2

/-- The event of the scenario resolution. -/
def sampleResolveEv : OutcomeRecorded :=
  match sampleResolve with
  | .ok (_, _, ev) => ev
  | .error _ =>
    { provider := 0, signal_hash := [], outcome := 0, was_correct := false,
      return_bps := 0, total_signals := 0, correct_signals := 0 }

/-- A revealed, unresolved commitment written out literally (its digest plays no
role in resolution). -/
def plainRevealedCommit : SignalCommit :=
  { provider := 7, signal_hash := List.replicate 32 0, committed_at := 0,
    revealed := true, outcome_recorded := false, token := [66], direction := 0,
    entry_cents := 1, tp_cents := 2, sl_cents := 0, timeframe_hours := 1,
    confidence := 50, revealed_at := 1, outcome := 0, final_price_cents := 0,
    was_correct := false, return_bps := 0, evaluated_at := 0, bump := 255 }

/-- A minimal provider record. -/
def plainProvider : Provider :=
  { authority := 9, name := [], endpoint := [], categories := [], price_lamports := 0,
    total_signals := 0, correct_signals := 0, total_return_bps := 0, created_at := 0,
    updated_at := 0, bump := 255 }

/-- A resolution of `plainRevealedCommit` with outcome EXPIRED and zero return. -/
def plainResolve3 : Except AgentAlphaError (SignalCommit × Provider × OutcomeRecorded) :=
  record_outcome plainRevealedCommit plainProvider 7 3 100 0 9

/-- The commitment produced by `plainResolve3`. -/
def plainResolved3 : SignalCommit :=
  (runRecordOutcome plainRevealedCommit plainProvider 7 3 100 0 9).1

/-- The provider produced by `plainResolve3`. -/
def plainResolved3Prov : Provider :=
  (runRecordOutcome plainRevealedCommit plainProvider 7 3 100 0 9).2

/-- The event produced by `plainResolve3`. -/
def plainResolved3Ev : OutcomeRecorded :=
  match plainResolve3 with
  | .ok (_, _, ev) => ev
  | .error _ =>
    { provider := 0, signal_hash := [], outcome := 0, was_correct := false,
      return_bps := 0, total_signals := 0, correct_signals := 0 }

/-- A `record_outcome` account set over the plain fixtures, parameterised by the
oracle key; the oracle has signed. -/
def c6Accounts (oracle : Nat) : RecordOutcomeAccounts :=
  { signal_commit := plainRevealedCommit, provider := plainProvider, providerKey := 7,
    oracle := oracle, oracleSigned := true }

/-- A payload violating every reveal bound (token of 20 bytes, direction 7,
timeframe 99, confidence 200). -/
def junkPayload : RevealPayload :=
  { token := List.replicate 20 65, direction := 7, entry_cents := 1, tp_cents := 2,
    sl_cents := 3, timeframe_hours := 99, confidence := 200 }

/-- The empty chain store. -/
def emptyChain : ChainState := { providers := [], commits := [] }

/-- The chain store after the scenario registration. -/
def regChain : ChainState :=
  runRegisterStep emptyChain 5 sampleName sampleEndpoint [1, 2] 1000000 50

/-- The provider after a scenario update (new one-byte name, new price). -/
def updatedSample : Provider := runUpdate sampleProvider (some [97]) none (some 5) 99

/-! ### The two claims refuted below, as stated -/

/-- Claim C1 as stated: for a Committed commitment, any valid payload whose digest
matches the stored hash pins down the reveal so strictly that every other valid
payload fails `HashMismatch`. -/
def C1Statement : Prop :=
  ∀ c : SignalCommit, c.revealed = false →
    ∀ P : RevealPayload, ValidPayload P → sha256 (encodePayload P) = c.signal_hash →
      ∀ Q : RevealPayload, ValidPayload Q → Q ≠ P →
        ∀ now : Int, reveal_signal c Q now = .error .HashMismatch

/-- Claim C6 as stated: some system-wide designated reporter exists such that a
resolve call by any other oracle fails. -/
def C6Statement : Prop :=
  ∃ reporter : Nat,
    ∀ (a : RecordOutcomeAccounts) (outcome final_price_cents : Nat)
      (return_bps : Int) (now : Int),
      a.oracle ≠ reporter →
      (recordOutcomeFull a outcome final_price_cents return_bps now).isOk = false

/-! ### Lemmas -/

theorem sha256_length (msg : List Nat) : (sha256 msg).length = 32 := by
  simp [sha256, wordBytes]

theorem wordBytes_lt (w : Nat) : ∀ b ∈ wordBytes w, b < 256 := by
  intro b hb
  simp only [wordBytes, List.mem_cons, List.not_mem_nil, or_false] at hb
  rcases hb with rfl | rfl | rfl | rfl <;> exact Nat.mod_lt _ (by norm_num)

theorem sha256_bytes_lt (msg : List Nat) : ∀ b ∈ sha256 msg, b < 256 := by
  intro b hb
  simp only [sha256, List.mem_append] at hb
  rcases hb with ((((((h | h) | h) | h) | h) | h) | h) | h <;> exact wordBytes_lt _ b h

/-- A successful `reveal_signal` happened with the guards passed and produced exactly
the expected record and event. -/
theorem reveal_signal_ok_inv {c : SignalCommit} {p : RevealPayload} {now : Int}
    {c' : SignalCommit} {ev : SignalRevealed}
    (h : reveal_signal c p now = .ok (c', ev)) :
    c.revealed = false ∧ p.token.length ≤ 16 ∧ p.direction ≤ 1 ∧
    (1 ≤ p.timeframe_hours ∧ p.timeframe_hours ≤ 72) ∧ p.confidence ≤ 100 ∧
    sha256 (encodePayload p) = c.signal_hash ∧
    c' = { c with
           revealed := true, token := p.token, direction := p.direction,
           entry_cents := p.entry_cents, tp_cents := p.tp_cents,
           sl_cents := p.sl_cents, timeframe_hours := p.timeframe_hours,
           confidence := p.confidence, revealed_at := now } := by
  simp only [reveal_signal] at h
  split_ifs at h with h1 h2 h3 h4 h5 h6 <;>
    simp only [Except.ok.injEq, Prod.mk.injEq, reduceCtorEq] at h
  exact ⟨by simpa using h1, h2, h3, h4, h5, h6, h.1.symm⟩

/-- Success of `reveal_signal` when the commitment is unrevealed, the bounds hold and
the recomputed digest matches. -/
theorem reveal_signal_ok {c : SignalCommit} {p : RevealPayload} {now : Int}
    (h1 : c.revealed = false) (h2 : p.token.length ≤ 16) (h3 : p.direction ≤ 1)
    (h4 : 1 ≤ p.timeframe_hours ∧ p.timeframe_hours ≤ 72) (h5 : p.confidence ≤ 100)
    (h6 : sha256 (encodePayload p) = c.signal_hash) :
    reveal_signal c p now = .ok
      ({ c with
         revealed := true, token := p.token, direction := p.direction,
         entry_cents := p.entry_cents, tp_cents := p.tp_cents,
         sl_cents := p.sl_cents, timeframe_hours := p.timeframe_hours,
         confidence := p.confidence, revealed_at := now },
       { provider := c.provider, signal_hash := c.signal_hash, token := p.token,
         direction := p.direction, entry_cents := p.entry_cents,
         tp_cents := p.tp_cents, sl_cents := p.sl_cents,
         timeframe_hours := p.timeframe_hours, confidence := p.confidence }) := by
  unfold reveal_signal
  simp [h1, h2, h3, h4, h5, h6]

/-- A successful `record_outcome` happened with the guards passed. -/
theorem record_outcome_ok_inv {c : SignalCommit} {prov : Provider} {providerKey : Nat}
    {outcome final_price_cents : Nat} {return_bps : Int} {now : Int}
    {c' : SignalCommit} {prov' : Provider} {ev : OutcomeRecorded}
    (h : record_outcome c prov providerKey outcome final_price_cents return_bps now =
      .ok (c', prov', ev)) :
    c.revealed = true ∧ c.outcome_recorded = false ∧ 1 ≤ outcome ∧ outcome ≤ 3 := by
  simp only [record_outcome] at h
  split_ifs at h with h1 h2 h3 <;>
    simp only [Except.ok.injEq, Prod.mk.injEq, reduceCtorEq] at h
  all_goals exact ⟨by simpa using h1, by simpa using h2, h3.1, h3.2⟩

/-- The exact result of a successful `record_outcome`. -/
theorem record_outcome_ok {c : SignalCommit} {prov : Provider} {providerKey : Nat}
    {outcome final_price_cents : Nat} {return_bps : Int} {now : Int}
    (h1 : c.revealed = true) (h2 : c.outcome_recorded = false)
    (h3 : 1 ≤ outcome) (h4 : outcome ≤ 3) :
    record_outcome c prov providerKey outcome final_price_cents return_bps now = .ok
      ({ c with
         outcome_recorded := true, outcome := outcome,
         final_price_cents := final_price_cents,
         was_correct := wcPolicy outcome return_bps,
         return_bps := return_bps, evaluated_at := now },
       { prov with
         total_signals := prov.total_signals + 1,
         correct_signals :=
           prov.correct_signals + (if wcPolicy outcome return_bps then 1 else 0),
         total_return_bps := prov.total_return_bps + return_bps, updated_at := now },
       { provider := providerKey, signal_hash := c.signal_hash, outcome := outcome,
         was_correct := wcPolicy outcome return_bps, return_bps := return_bps,
         total_signals := prov.total_signals + 1,
         correct_signals :=
           prov.correct_signals + (if wcPolicy outcome return_bps then 1 else 0) }) := by
  unfold record_outcome
  simp [h1, h2, h3, h4]

/-- The exact result of a successful `update_provider`: supplied fields are written,
missing fields keep their value, `updated_at` is bumped, nothing else changes. -/
theorem update_provider_ok {p p' : Provider} {name endpoint : Option (List Nat)}
    {price_lamports : Option Nat} {now : Int}
    (h : update_provider p name endpoint price_lamports now = .ok p') :
    p' = { p with
           name := name.getD p.name, endpoint := endpoint.getD p.endpoint,
           price_lamports := price_lamports.getD p.price_lamports,
           updated_at := now } := by
  rcases name with _ | nn <;> rcases endpoint with _ | ee <;>
    rcases price_lamports with _ | pp <;>
    simp only [update_provider, Option.getD_some, Option.getD_none, pure, bind,
      Except.bind, Except.pure] at h ⊢ <;>
    (try split_ifs at h) <;> simp_all

/-- On reachable commitments, `outcome_recorded` implies `revealed` (spec section 3
invariant). -/
theorem commitReach_recorded_imp_revealed {c : SignalCommit} (h : CommitReach c) :
    c.outcome_recorded = true → c.revealed = true := by
  induction h with
  | committed pk bump sh now => simp [commit_signal]
  | revealStep p now _ hok _ =>
      obtain ⟨-, -, -, -, -, -, rfl⟩ := reveal_signal_ok_inv hok
      simp
  | resolveStep pk o fp ret now hre hok ih =>
      obtain ⟨hrev, -, -, -⟩ := record_outcome_ok_inv hok
      obtain ⟨h1, h2, h3, h4⟩ := record_outcome_ok_inv hok
      rw [record_outcome_ok h1 h2 h3 h4] at hok
      simp only [Except.ok.injEq, Prod.mk.injEq] at hok
      obtain ⟨rfl, -, -⟩ := hok
      intro _
      simpa using h1

/-- A successful registration starts all counters at zero. -/
theorem register_provider_ok_inv {providerKey authority bump : Nat}
    {name endpoint categories : List Nat} {price_lamports : Nat} {now : Int}
    {p : Provider} {ev : ProviderRegistered}
    (h : register_provider providerKey authority bump name endpoint categories
      price_lamports now = .ok (p, ev)) :
    p = { authority := authority, name := name, endpoint := endpoint,
          categories := categories, price_lamports := price_lamports,
          total_signals := 0, correct_signals := 0, total_return_bps := 0,
          created_at := now, updated_at := now, bump := bump } ∧
    name.length ≤ 64 ∧ endpoint.length ≤ 256 ∧ categories.length ≤ 8 := by
  unfold register_provider at h
  split_ifs at h with h1 h2 h3 <;>
    simp only [Except.ok.injEq, Prod.mk.injEq, reduceCtorEq] at h
  exact ⟨h.1.symm, h1, h2, h3⟩

/-- The counters of every reachable provider state satisfy
`correct_signals ≤ total_signals`. -/
theorem providerReach_correct_le_total {p : Provider} (h : ProviderReach p) :
    p.correct_signals ≤ p.total_signals := by
  induction h with
  | registered pk auth bump name ep cats price now hok =>
      obtain ⟨rfl, -⟩ := register_provider_ok_inv hok
      simp
  | updateStep name ep price now _ hok ih =>
      rw [update_provider_ok hok]
      simpa using ih
  | resolveStep pk o fp ret now _ hok ih =>
      obtain ⟨h1, h2, h3, h4⟩ := record_outcome_ok_inv hok
      rw [record_outcome_ok h1 h2 h3 h4] at hok
      simp only [Except.ok.injEq, Prod.mk.injEq] at hok
      obtain ⟨-, rfl, -⟩ := hok
      simp only
      split_ifs <;> omega

theorem pigeonPayload_valid (x : PigeonIdx) : ValidPayload (pigeonPayload x) := by
  refine ⟨?_, by simp [pigeonPayload], by simp [pigeonPayload], by simp [pigeonPayload],
    by simp [pigeonPayload]⟩
  simp [pigeonPayload, pigeonToken]

theorem pigeonPayload_inj : Function.Injective pigeonPayload := by
  rintro ⟨t, e, tp, sl⟩ ⟨t', e', tp', sl'⟩ h
  simp only [pigeonPayload, RevealPayload.mk.injEq, pigeonToken, and_true, true_and,
    eq_self_iff_true] at h
  obtain ⟨htok, he, htp, hsl⟩ := h
  rw [List.ofFn_inj] at htok
  refine Prod.ext ?_ (Prod.ext ?_ (Prod.ext ?_ ?_)) <;> simp only
  · funext i
    have hti := congrFun htok i
    exact Fin.ext (by omega)
  · exact Fin.ext he
  · exact Fin.ext htp
  · exact Fin.ext hsl

theorem digestFn_inj {l l' : List Nat} (h1 : l.length = 32) (h2 : l'.length = 32)
    (hb : ∀ b ∈ l, b < 256) (hb' : ∀ b ∈ l', b < 256)
    (h : digestFn l = digestFn l') : l = l' := by
  apply List.ext_getElem (by omega)
  intro n hn hn'
  have hfn := congrFun h ⟨n, by omega⟩
  simp only [digestFn, Fin.mk.injEq] at hfn
  rw [List.getD_eq_getElem l 0 hn, List.getD_eq_getElem l' 0 hn'] at hfn
  rwa [Nat.mod_eq_of_lt (hb _ (l.getElem_mem hn)),
    Nat.mod_eq_of_lt (hb' _ (l'.getElem_mem hn'))] at hfn

/-- Pigeonhole: two distinct valid payloads share a SHA-256 digest. -/
theorem sha256_payload_collision :
    ∃ x y : RevealPayload, ValidPayload x ∧ ValidPayload y ∧ x ≠ y ∧
      sha256 (encodePayload x) = sha256 (encodePayload y) := by
  have hcard : Fintype.card (Fin 32 → Fin 256) < Fintype.card PigeonIdx := by
    simp only [PigeonIdx, Fintype.card_prod, Fintype.card_fun, Fintype.card_fin]
    norm_num
  obtain ⟨x, y, hxy, hf⟩ := Fintype.exists_ne_map_eq_of_card_lt
    (fun x : PigeonIdx => digestFn (sha256 (encodePayload (pigeonPayload x)))) hcard
  refine ⟨pigeonPayload x, pigeonPayload y, pigeonPayload_valid x, pigeonPayload_valid y,
    fun hx => hxy (pigeonPayload_inj hx), ?_⟩
  exact digestFn_inj (sha256_length _) (sha256_length _) (sha256_bytes_lt _)
    (sha256_bytes_lt _) hf

/-- Rust (and therefore `Provider::avg_return_bps`'s) signed division truncates
toward zero: its magnitude is the floor of the magnitude quotient, with the
dividend's sign. -/
theorem int_tdiv_eq_sign_mul (a : Int) (b : Nat) :
    Int.tdiv a (Int.ofNat b) = a.sign * ((a.natAbs / b : Nat) : Int) := by
  cases a with
  | ofNat m =>
      cases m with
      | zero => simp [Int.tdiv]
      | succ k =>
          simp [Int.tdiv, Int.sign]
          rw [abs_of_nonneg (by positivity)]
  | negSucc m => simp [Int.tdiv, Int.sign]

/-- Natural division is the floor of the rational quotient. -/
theorem nat_div_eq_floor (a b : Nat) : a / b = ⌊((a : ℚ)) / ((b : ℚ))⌋₊ := by
  rw [Nat.floor_div_nat, Nat.floor_natCast]

/-! ### The claims -/

set_option maxRecDepth 100000

/-- Claim C2: on every successful `record_outcome`, `was_correct` is fixed by the
outcome code alone — TARGET_HIT (1) gives `true` for every return and price,
STOP_HIT (2) gives `false`, EXPIRED (3) gives `was_correct = (return_bps > 0)`,
with the boundary `return_bps = 0` giving `false`. -/
theorem claim_C2 {c : SignalCommit} {prov : Provider}
    {providerKey outcome final_price_cents : Nat} {return_bps : Int} {now : Int}
    {c' : SignalCommit} {prov' : Provider} {ev : OutcomeRecorded}
    (h : record_outcome c prov providerKey outcome final_price_cents return_bps now =
      .ok (c', prov', ev)) :
    (outcome = 1 → c'.was_correct = true) ∧
    (outcome = 2 → c'.was_correct = false) ∧
    (outcome = 3 → (c'.was_correct = true ↔ 0 < return_bps)) ∧
    (outcome = 3 → return_bps = 0 → c'.was_correct = false) := by
  obtain ⟨h1, h2, h3, h4⟩ := record_outcome_ok_inv h
  rw [record_outcome_ok h1 h2 h3 h4] at h
  simp only [Except.ok.injEq, Prod.mk.injEq] at h
  obtain ⟨hc, -⟩ := h
  subst hc
  refine ⟨fun ho => ?_, fun ho => ?_, fun ho => ?_, fun ho hr => ?_⟩ <;>
    subst ho <;> (try subst hr) <;> simp [wcPolicy]

/-- Claim C2 witness: a concrete EXPIRED resolution with zero return is counted
as not correct. -/
theorem claim_C2_witness :
    (record_outcome plainRevealedCommit plainProvider 7 3 100 0 9 =
      .ok (plainResolved3, plainResolved3Prov, plainResolved3Ev)) ∧
    plainResolved3.was_correct = false := by
  have h : record_outcome plainRevealedCommit plainProvider 7 3 100 0 9 =
      .ok (plainResolved3, plainResolved3Prov, plainResolved3Ev) := rfl
  exact ⟨h, (claim_C2 h).2.2.2 rfl rfl⟩

/-- Claim C3: on a reachable commitment, `record_outcome` fails `NotRevealed`
before reveal and `OutcomeAlreadyRecorded` (the spec's `AlreadyResolved`) after a
first resolution, leaving the commitment and the provider counters unchanged in
both cases. -/
theorem claim_C3 {c : SignalCommit} {prov : Provider}
    (providerKey outcome final_price_cents : Nat) (return_bps : Int) (now : Int)
    (hreach : CommitReach c) :
    (c.revealed = false →
      record_outcome c prov providerKey outcome final_price_cents return_bps now =
        .error .NotRevealed ∧
      runRecordOutcome c prov providerKey outcome final_price_cents return_bps now =
        (c, prov)) ∧
    (c.outcome_recorded = true →
      record_outcome c prov providerKey outcome final_price_cents return_bps now =
        .error .OutcomeAlreadyRecorded ∧
      runRecordOutcome c prov providerKey outcome final_price_cents return_bps now =
        (c, prov)) := by
  constructor
  · intro hrev
    have herr : record_outcome c prov providerKey outcome final_price_cents return_bps
        now = .error .NotRevealed := by
      unfold record_outcome
      simp [hrev]
    exact ⟨herr, by simp [runRecordOutcome, herr]⟩
  · intro hrec
    have hrev := commitReach_recorded_imp_revealed hreach hrec
    have herr : record_outcome c prov providerKey outcome final_price_cents return_bps
        now = .error .OutcomeAlreadyRecorded := by
      unfold record_outcome
      simp [hrev, hrec]
    exact ⟨herr, by simp [runRecordOutcome, herr]⟩

/-- Claim C3 witness: resolving the freshly committed scenario record fails
`NotRevealed`, and resolving the already-resolved scenario record fails
`OutcomeAlreadyRecorded`. -/
theorem claim_C3_witness :
    (record_outcome sampleCommit plainProvider 5 1 0 0 9 = .error .NotRevealed) ∧
    (record_outcome sampleResolved sampleProvider 5 2 0 0 9 =
      .error .OutcomeAlreadyRecorded) := by
  have r1 : CommitReach sampleCommit := .committed 5 255 sampleHash 100
  have hrev : reveal_signal sampleCommit samplePayload 200 =
      .ok (sampleRevealed, sampleRevealEv) := by decide
  have r2 : CommitReach sampleRevealed := .revealStep samplePayload 200 r1 hrev
  have hres : record_outcome sampleRevealed sampleProvider 5 1 6700000 308 300 =
      .ok (sampleResolved, sampleResolvedProv, sampleResolveEv) := by decide
  have r3 : CommitReach sampleResolved := .resolveStep 5 1 6700000 308 300 r2 hres
  exact ⟨((claim_C3 5 1 0 0 9 r1).1 rfl).1, ((claim_C3 5 2 0 0 9 r3).2 (by decide)).1⟩

/-- Claim C4: a successful `record_outcome` performs exactly the listed updates on
the commitment and the provider (structure-update equalities, so every other field
is unchanged), and the emitted `OutcomeRecorded` event carries the provider's
post-update `total_signals` and `correct_signals`. -/
theorem claim_C4 {c : SignalCommit} {prov : Provider}
    {providerKey outcome final_price_cents : Nat} {return_bps : Int} {now : Int}
    {c' : SignalCommit} {prov' : Provider} {ev : OutcomeRecorded}
    (h : record_outcome c prov providerKey outcome final_price_cents return_bps now =
      .ok (c', prov', ev)) :
    c' = { c with
           outcome_recorded := true, outcome := outcome,
           final_price_cents := final_price_cents,
           was_correct := wcPolicy outcome return_bps, return_bps := return_bps,
           evaluated_at := now } ∧
    prov' = { prov with
              total_signals := prov.total_signals + 1,
              correct_signals :=
                prov.correct_signals + (if wcPolicy outcome return_bps then 1 else 0),
              total_return_bps := prov.total_return_bps + return_bps,
              updated_at := now } ∧
    ev = { provider := providerKey, signal_hash := c.signal_hash, outcome := outcome,
           was_correct := wcPolicy outcome return_bps, return_bps := return_bps,
           total_signals := prov'.total_signals,
           correct_signals := prov'.correct_signals } ∧
    ev.total_signals = prov'.total_signals ∧ ev.correct_signals = prov'.correct_signals := by
  obtain ⟨h1, h2, h3, h4⟩ := record_outcome_ok_inv h
  rw [record_outcome_ok h1 h2 h3 h4] at h
  simp only [Except.ok.injEq, Prod.mk.injEq] at h
  obtain ⟨hc, hp, he⟩ := h
  subst hc
  subst hp
  subst he
  exact ⟨rfl, rfl, rfl, rfl, rfl⟩

/-- Claim C4 witness: the scenario resolution's event carries the post-update
counters. -/
theorem claim_C4_witness :
    sampleResolveEv.total_signals = sampleResolvedProv.total_signals ∧
    sampleResolveEv.correct_signals = sampleResolvedProv.correct_signals := by
  have hres : record_outcome sampleRevealed sampleProvider 5 1 6700000 308 300 =
      .ok (sampleResolved, sampleResolvedProv, sampleResolveEv) := by decide
  exact ⟨(claim_C4 hres).2.2.2.1, (claim_C4 hres).2.2.2.2⟩

/-- Claim C1 counterexample: the claim's final clause — every valid payload other
than the committed one fails `HashMismatch` — is false: there are more than 2^256
valid payloads, so two distinct ones share a digest, and revealing the second
against a commitment to the first succeeds. -/
theorem claim_C1_counterexample : ¬ C1Statement := by
  intro hcl
  obtain ⟨x, y, hvx, hvy, hxy, hsha⟩ := sha256_payload_collision
  have hcy := hcl
    { provider := 0, signal_hash := sha256 (encodePayload x), committed_at := 0,
      revealed := false, outcome_recorded := false, token := [], direction := 0,
      entry_cents := 0, tp_cents := 0, sl_cents := 0, timeframe_hours := 0,
      confidence := 0, revealed_at := 0, outcome := 0, final_price_cents := 0,
      was_correct := false, return_bps := 0, evaluated_at := 0, bump := 0 }
    rfl x hvx rfl y hvy (fun hyx => hxy hyx.symm) 0
  obtain ⟨t1, t2, t3, t4, t5⟩ := hvy
  have h6 : sha256 (encodePayload y) = sha256 (encodePayload x) := hsha.symm
  have hok := @reveal_signal_ok
    { provider := 0, signal_hash := sha256 (encodePayload x), committed_at := 0,
      revealed := false, outcome_recorded := false, token := [], direction := 0,
      entry_cents := 0, tp_cents := 0, sl_cents := 0, timeframe_hours := 0,
      confidence := 0, revealed_at := 0, outcome := 0, final_price_cents := 0,
      was_correct := false, return_bps := 0, evaluated_at := 0, bump := 0 }
    y 0 rfl t1 t2 ⟨t3, t4⟩ t5 h6
  rw [hcy] at hok
  simp at hok

/-- Claim C1 (amended): for a Committed commitment and a payload passing the bounds
checks, `reveal_signal` succeeds iff the SHA-256 digest of the canonical encoding
equals the stored `signal_hash`; on a differing digest it fails `HashMismatch` and
the record is unchanged.  (The original claim's final clause holds only for
payloads whose encodings do not collide under SHA-256 — collisions exist by
counting, so the unconditional form is refuted above.) -/
theorem claim_C1 {c : SignalCommit} (hrev : c.revealed = false) (p : RevealPayload)
    (hv : ValidPayload p) (now : Int) :
    ((reveal_signal c p now).isOk = true ↔ sha256 (encodePayload p) = c.signal_hash) ∧
    (sha256 (encodePayload p) ≠ c.signal_hash →
      reveal_signal c p now = .error .HashMismatch ∧ runReveal c p now = c) := by
  obtain ⟨h1, h2, h3, h4, h5⟩ := hv
  constructor
  · constructor
    · intro hok
      cases heq : reveal_signal c p now with
      | error e => rw [heq] at hok; simp [Except.isOk, Except.toBool] at hok
      | ok r =>
          obtain ⟨c', ev⟩ := r
          exact (reveal_signal_ok_inv heq).2.2.2.2.2.1
    · intro hsha
      rw [reveal_signal_ok hrev h1 h2 ⟨h3, h4⟩ h5 hsha]
      rfl
  · intro hne
    have herr : reveal_signal c p now = .error .HashMismatch := by
      unfold reveal_signal
      simp [hrev, h1, h2, h3, h4, h5, hne]
    exact ⟨herr, by simp [runReveal, herr]⟩

/-- Claim C1 witness: the spec's BTC scenario — the reveal of the committed payload
is accepted, and acceptance is equivalent to the digest matching. -/
theorem claim_C1_witness :
    ((reveal_signal sampleCommit samplePayload 200).isOk = true ↔
      sha256 (encodePayload samplePayload) = sampleCommit.signal_hash) ∧
    (reveal_signal sampleCommit samplePayload 200).isOk = true :=
  ⟨(claim_C1 rfl samplePayload (by decide) 200).1, by decide⟩

/-- Claim C5: after any resolve on a reachable provider state, the aggregate
identities hold — `correct_signals ≤ total_signals`, `hit_rate_bps` is the floor
of the rational `correct_signals * 10000 / total_signals`, and `avg_return_bps`
is `total_return_bps / total_signals` truncated toward zero (the floor of the
magnitude quotient with the dividend's sign); both derived figures are 0 when
`total_signals = 0`. -/
theorem claim_C5 {p p' : Provider} {c c' : SignalCommit} {ev : OutcomeRecorded}
    (providerKey outcome final_price_cents : Nat) (return_bps : Int) (now : Int)
    (hreach : ProviderReach p)
    (h : record_outcome c p providerKey outcome final_price_cents return_bps now =
      .ok (c', p', ev)) :
    p'.correct_signals ≤ p'.total_signals ∧
    p'.hit_rate_bps = ⌊((p'.correct_signals * 10000 : Nat) : ℚ) / ((p'.total_signals : Nat) : ℚ)⌋₊ ∧
    p'.avg_return_bps =
      p'.total_return_bps.sign * ((p'.total_return_bps.natAbs / p'.total_signals : Nat) : Int) ∧
    (∀ q : Provider, q.total_signals = 0 → q.hit_rate_bps = 0 ∧ q.avg_return_bps = 0) := by
  have hle₀ := providerReach_correct_le_total hreach
  obtain ⟨h1, h2, h3, h4⟩ := record_outcome_ok_inv h
  rw [record_outcome_ok h1 h2 h3 h4] at h
  simp only [Except.ok.injEq, Prod.mk.injEq] at h
  obtain ⟨-, hp, -⟩ := h
  subst hp
  refine ⟨?_, ?_, ?_, fun q hq => ?_⟩
  · simp only
    split_ifs <;> omega
  · rw [← nat_div_eq_floor]
    simp [Provider.hit_rate_bps]
  · rw [← int_tdiv_eq_sign_mul]
    simp [Provider.avg_return_bps]
  · exact ⟨by simp [Provider.hit_rate_bps, hq], by simp [Provider.avg_return_bps, hq]⟩

/-- Claim C5 witness: the spec scenario — after registering and resolving one
TARGET_HIT signal, the counters satisfy the identities and the hit rate is
10000 bps. -/
theorem claim_C5_witness :
    sampleResolvedProv.correct_signals ≤ sampleResolvedProv.total_signals ∧
    sampleResolvedProv.hit_rate_bps = 10000 := by
  have hreg : register_provider 5 5 255 sampleName sampleEndpoint [1, 2] 1000000 50 =
      .ok (sampleProvider,
        { provider := 5, authority := 5, name := sampleName,
          endpoint := sampleEndpoint }) := by decide
  have hr : ProviderReach sampleProvider :=
    .registered 5 5 255 sampleName sampleEndpoint [1, 2] 1000000 50 hreg
  have hres : record_outcome sampleRevealed sampleProvider 5 1 6700000 308 300 =
      .ok (sampleResolved, sampleResolvedProv, sampleResolveEv) := by decide
  exact ⟨(claim_C5 5 1 6700000 308 300 hr hres).1, by decide⟩

/-- Claim C6 counterexample: no designated system-wide reporter exists — for every
candidate reporter key, a resolve signed by a different oracle key still succeeds,
because `record_outcome` never compares the oracle to anything. -/
theorem claim_C6_counterexample : ¬ C6Statement := by
  rintro ⟨reporter, hrep⟩
  have hfail := hrep (c6Accounts (reporter + 1)) 1 0 0 0 (by simp [c6Accounts])
  have hok : (recordOutcomeFull (c6Accounts (reporter + 1)) 1 0 0 0).isOk = true := rfl
  rw [hok] at hfail
  exact Bool.noConfusion hfail

/-- Claim C6 (amended): `record_outcome` requires only that the supplied oracle
account signed the transaction; there is no designated-reporter check — the result
is independent of the oracle's identity (so any signer, the provider's owner
included, can resolve), and an unsigned oracle fails the signer check. -/
theorem claim_C6 (a : RecordOutcomeAccounts) (o : Nat)
    (outcome final_price_cents : Nat) (return_bps : Int) (now : Int) :
    recordOutcomeFull { a with oracle := o } outcome final_price_cents return_bps now =
      recordOutcomeFull a outcome final_price_cents return_bps now ∧
    (a.oracleSigned = false →
      recordOutcomeFull a outcome final_price_cents return_bps now =
        .error .unauthorized) := by
  refine ⟨rfl, fun hns => ?_⟩
  unfold recordOutcomeFull
  simp [hns]

/-- Claim C6 witness: swapping the oracle key leaves the result unchanged, and an
unsigned oracle is rejected. -/
theorem claim_C6_witness :
    (recordOutcomeFull { c6Accounts 9 with oracle := 3 } 1 0 0 0 =
      recordOutcomeFull (c6Accounts 9) 1 0 0 0) ∧
    (recordOutcomeFull { c6Accounts 9 with oracleSigned := false } 1 0 0 0 =
      .error .unauthorized) :=
  ⟨(claim_C6 (c6Accounts 9) 3 1 0 0 0).1,
   (claim_C6 { c6Accounts 9 with oracleSigned := false } 0 1 0 0 0).2 rfl⟩

/-- Claim C7: reveal is strictly one-shot — on an already-revealed commitment any
further reveal fails `AlreadyRevealed`, for every payload (the `revealed` guard
runs before any bounds or hash check), and the record is unchanged. -/
theorem claim_C7 {c : SignalCommit} (hrev : c.revealed = true) (p : RevealPayload)
    (now : Int) :
    reveal_signal c p now = .error .AlreadyRevealed ∧ runReveal c p now = c := by
  have herr : reveal_signal c p now = .error .AlreadyRevealed := by
    unfold reveal_signal
    simp [hrev]
  exact ⟨herr, by simp [runReveal, herr]⟩

/-- Claim C7 witness: a second reveal of the revealed scenario commitment fails
`AlreadyRevealed` even for a payload that violates every bound and whose digest
does not match. -/
theorem claim_C7_witness :
    sampleRevealed.revealed = true ∧ ¬ ValidPayload junkPayload ∧
    sha256 (encodePayload junkPayload) ≠ sampleRevealed.signal_hash ∧
    reveal_signal sampleRevealed junkPayload 0 = .error .AlreadyRevealed :=
  ⟨by decide, by decide, by decide, (claim_C7 (by decide) junkPayload 0).1⟩

/-- Claim C8: registration is unique per owner — a second registration at the same
owner-derived key fails `IdentityAlreadyRegistered` with the store unchanged — and
a successful registration stores a provider whose counters are zero, so its
`hit_rate_bps` is 0. -/
theorem claim_C8 {s : ChainState} (authority : Nat) (name endpoint categories : List Nat)
    (price_lamports : Nat) (now : Int) :
    (∀ p₀, s.providers.lookup (providerPda authority) = some p₀ →
      registerStep s authority name endpoint categories price_lamports now =
        .error .identityAlreadyRegistered ∧
      runRegisterStep s authority name endpoint categories price_lamports now = s) ∧
    (∀ s', registerStep s authority name endpoint categories price_lamports now = .ok s' →
      ∃ p, s'.providers.lookup (providerPda authority) = some p ∧
        p.total_signals = 0 ∧ p.correct_signals = 0 ∧ p.total_return_bps = 0 ∧
        p.hit_rate_bps = 0) := by
  constructor
  · intro p₀ hl
    have herr : registerStep s authority name endpoint categories price_lamports now =
        .error .identityAlreadyRegistered := by
      simp [registerStep, hl]
    exact ⟨herr, by simp [runRegisterStep, herr]⟩
  · intro s' hok
    simp only [registerStep] at hok
    cases hl : s.providers.lookup (providerPda authority) with
    | some p₀ => rw [hl] at hok; simp at hok
    | none =>
        rw [hl] at hok
        cases hreg : register_provider (providerPda authority) authority 255 name
            endpoint categories price_lamports now with
        | error e => rw [hreg] at hok; simp at hok
        | ok pe =>
            obtain ⟨p, ev⟩ := pe
            rw [hreg] at hok
            simp only [Except.ok.injEq] at hok
            subst hok
            obtain ⟨hp0, -⟩ := register_provider_ok_inv hreg
            refine ⟨p, by simp [List.lookup], ?_, ?_, ?_, ?_⟩ <;>
              rw [hp0] <;> simp [Provider.hit_rate_bps]

/-- Claim C8 witness: registering the scenario provider on an empty chain succeeds
with zero counters, and registering the same owner again fails
`IdentityAlreadyRegistered` leaving the store unchanged. -/
theorem claim_C8_witness :
    (∃ p, regChain.providers.lookup (providerPda 5) = some p ∧
      p.total_signals = 0 ∧ p.correct_signals = 0 ∧ p.total_return_bps = 0 ∧
      p.hit_rate_bps = 0) ∧
    (registerStep regChain 5 sampleName sampleEndpoint [1, 2] 1000000 60 =
      .error .identityAlreadyRegistered ∧
     runRegisterStep regChain 5 sampleName sampleEndpoint [1, 2] 1000000 60 =
      regChain) :=
  ⟨(@claim_C8 emptyChain 5 sampleName sampleEndpoint [1, 2] 1000000 50).2 regChain
     (by decide),
   (@claim_C8 regChain 5 sampleName sampleEndpoint [1, 2] 1000000 60).1 sampleProvider
     (by decide)⟩

/-- Claim C9: `update_provider` writes exactly the supplied optional fields — each
re-validated, failing `NameTooLong` / `EndpointTooLong` with no mutation — keeps
every unsupplied field, and bumps `updated_at`; owner, categories, counters and
`created_at` are never touched (the structure-update equality fixes them). -/
theorem claim_C9 {p : Provider} (name endpoint : Option (List Nat))
    (price_lamports : Option Nat) (now : Int) :
    (∀ p', update_provider p name endpoint price_lamports now = .ok p' →
      p' = { p with
             name := name.getD p.name, endpoint := endpoint.getD p.endpoint,
             price_lamports := price_lamports.getD p.price_lamports,
             updated_at := now }) ∧
    (∀ nn, name = some nn → ¬ nn.length ≤ 64 →
      update_provider p name endpoint price_lamports now = .error .NameTooLong ∧
      runUpdate p name endpoint price_lamports now = p) ∧
    (∀ ee, (∀ nn ∈ name, nn.length ≤ 64) → endpoint = some ee → ¬ ee.length ≤ 256 →
      update_provider p name endpoint price_lamports now = .error .EndpointTooLong ∧
      runUpdate p name endpoint price_lamports now = p) := by
  refine ⟨fun p' h => update_provider_ok h, ?_, ?_⟩
  · rintro nn rfl hlen
    have herr : update_provider p (some nn) endpoint price_lamports now =
        .error .NameTooLong := by
      rcases endpoint with _ | ee <;> rcases price_lamports with _ | pp <;>
        simp [update_provider, hlen, bind, Except.bind, throw, throwThe,
          MonadExcept.throw, pure, Except.pure]
    exact ⟨herr, by simp [runUpdate, herr]⟩
  · rintro ee h64 rfl hlen
    have herr : update_provider p name (some ee) price_lamports now =
        .error .EndpointTooLong := by
      rcases name with _ | nn <;> rcases price_lamports with _ | pp <;>
        [skip; skip; (have hnn : nn.length ≤ 64 := h64 nn rfl);
         (have hnn : nn.length ≤ 64 := h64 nn rfl)] <;>
        simp [update_provider, hlen, bind, Except.bind, throw, throwThe,
          MonadExcept.throw, pure, Except.pure, *]
    exact ⟨herr, by simp [runUpdate, herr]⟩

/-- Claim C9 witness: an update supplying a short name and a price rewrites exactly
those fields and `updated_at`; an update supplying a 65-byte name fails
`NameTooLong` with no mutation; one supplying a 257-byte endpoint fails
`EndpointTooLong` with no mutation. -/
theorem claim_C9_witness :
    updatedSample = { sampleProvider with
                      name := [97], price_lamports := 5, updated_at := 99 } ∧
    runUpdate sampleProvider (some (List.replicate 65 97)) none none 99 =
      sampleProvider ∧
    runUpdate sampleProvider none (some (List.replicate 257 97)) none 99 =
      sampleProvider :=
  ⟨(claim_C9 (some [97]) none (some 5) 99).1 updatedSample (by decide),
   ((claim_C9 (some (List.replicate 65 97)) none none 99).2.1
     (List.replicate 65 97) rfl (by decide)).2,
   ((claim_C9 none (some (List.replicate 257 97)) none 99).2.2
     (List.replicate 257 97) (by simp) rfl (by decide)).2⟩

/-- Claim C10: `commit_signal` never inspects the committed digest — for every
32-byte value, a commit by a registered provider under a fresh
`(provider, signal_hash)` key succeeds, stores the hash verbatim, and initialises
`revealed = false` and `outcome_recorded = false`. -/
theorem claim_C10 {s : ChainState} {prov : Provider} (authority : Nat)
    (signal_hash : List Nat) (now : Int)
    (hp : s.providers.lookup (providerPda authority) = some prov)
    (hauth : prov.authority = authority)
    (hfresh : s.commits.lookup (providerPda authority, signal_hash) = none)
    (_hlen : signal_hash.length = 32) (_hbytes : ∀ b ∈ signal_hash, b < 256) :
    ∃ s' c, commitStep s authority signal_hash now = .ok s' ∧
      s'.commits.lookup (providerPda authority, signal_hash) = some c ∧
      c.signal_hash = signal_hash ∧ c.revealed = false ∧ c.outcome_recorded = false ∧
      c.provider = providerPda authority ∧ c.committed_at = now := by
  refine ⟨{ s with
            commits := ((providerPda authority, signal_hash),
              (commit_signal (providerPda authority) 255 signal_hash now).1) ::
                s.commits },
          (commit_signal (providerPda authority) 255 signal_hash now).1,
          ?_, ?_, rfl, rfl, rfl, rfl, rfl⟩
  · simp [commitStep, hp, hauth, hfresh]
  · simp [List.lookup]

/-- Claim C10 witness: committing an arbitrary 32-byte value (32 copies of byte 7,
the digest of nothing in particular) on the registered scenario chain succeeds and
stores it verbatim with both phase flags false. -/
theorem claim_C10_witness :
    ∃ s' c, commitStep regChain 5 (List.replicate 32 7) 400 = .ok s' ∧
      s'.commits.lookup (providerPda 5, List.replicate 32 7) = some c ∧
      c.signal_hash = List.replicate 32 7 ∧ c.revealed = false ∧
      c.outcome_recorded = false ∧ c.provider = providerPda 5 ∧
      c.committed_at = 400 :=
  @claim_C10 regChain sampleProvider 5 (List.replicate 32 7) 400 (by decide) rfl
    (by decide) (by decide) (by decide)
